import Mathlib

/-!
Verification development for the MP3 / ID3v2 metadata decoding core of the
`audio-metadata` library.  The Python sources `formats/mp3.py`,
`formats/id3v2.py` and `formats/models.py` are embedded shallowly: byte
streams become a `DataReader` value (a byte list plus a cursor), every
`load` classmethod becomes a total Lean function returning `Except Err`,
Python's unbounded integers become `Nat`/`Int`, and Python's float results
are modelled exactly as rationals.  Collaborator modules that are not part
of the core sources (`tables.py`, `utils.py`, `id3v2_frames.py`) are
modelled from the specification, as marked in their doc comments.
-/

/-- Python exception classes reachable from the embedded code.
`invalidFormat` is the `InvalidFormat("Missing XING header and insufficient
MPEG frames.")` raise, the error the spec calls `InsufficientAudioData`;
`invalidFrame` is `InvalidFrame` (the spec's recoverable `NotAnAudioFrame`);
`invalidHeader` is `InvalidHeader` (the spec's `HeaderNotFound` /
`InvalidHeader`); `bitstructError` and `structError` are the library errors
raised by `bitstruct.unpack` / `struct.unpack` on short input;
`malformedInteger` is the synchsafe reserved-bit failure; the remaining
constructors are the built-in Python exceptions the code can hit.
`outOfFuel` is an artifact of the fuelled scan loop and corresponds to no
Python behaviour. -/
inductive Err where
  | invalidFrame
  | invalidHeader
  | invalidFormat
  | bitstructError
  | structError
  | malformedInteger
  | valueError
  | typeError
  | zeroDivisionError
  | attributeError
  | indexError
  | keyError
  | outOfFuel
deriving DecidableEq

/-- Modelled from the spec (§6 byte source contract): a finite byte
sequence with a cursor supporting `read(n)` (advancing, returns at most
`n` bytes), `peek(n)` (non-advancing) and absolute/relative `seek`.  This
models the `DataReader` wrapper installed by the `datareader` decorator in
`utils.py`, which is not among the core sources. -/
structure DataReader where
  data : List Nat
  pos : Nat
deriving DecidableEq

def DataReader.peekN (r : DataReader) (n : Nat) : List Nat :=
  (r.data.drop r.pos).take n

def DataReader.readN (r : DataReader) (n : Nat) : List Nat × DataReader :=
  let bs := r.peekN n
  (bs, { r with pos := r.pos + bs.length })

def DataReader.seekSet (r : DataReader) (p : Nat) : DataReader :=
  { r with pos := p }

def DataReader.seekCur (r : DataReader) (off : Nat) : DataReader :=
  { r with pos := r.pos + off }

/-- Big-endian interpretation of a byte list (`struct.unpack('>I')` etc.). -/
def beNat (bs : List Nat) : Nat :=
  bs.foldl (fun acc b => acc * 256 + b) 0

/-- `struct.unpack` of an `n`-byte big-endian unsigned integer: raises
`struct.error` when fewer than `n` bytes can be read. -/
def DataReader.readBE (r : DataReader) (n : Nat) : Except Err (Nat × DataReader) :=
  let p := r.readN n
  if p.1.length < n then .error .structError else .ok (beNat p.1, p.2)

def xingMarker : List Nat := [88, 105, 110, 103]
def infoMarker : List Nat := [73, 110, 102, 111]
def vbriMarker : List Nat := [86, 66, 82, 73]
def lameMarker : List Nat := [76, 65, 77, 69]
def id3Marker : List Nat := [73, 68, 51]
def tagMarker : List Nat := [84, 65, 71]
def apetagexMarker : List Nat := [65, 80, 69, 84, 65, 71, 69, 88]
def lyricsbeginMarker : List Nat := [76, 89, 82, 73, 67, 83, 66, 69, 71, 73, 78]

/-- MPEG version as selected by the 2-bit version id (2.5 / 2 / 1);
the reserved id 1 is rejected before a version is ever built. -/
inductive MPEGVersion where
  | v1
  | v2
  | v25
deriving DecidableEq

/-- Modelled from the spec (§4.4 "static version/layer-keyed tables",
values are the standard MPEG bitrate table in kbps; `tables.py` is not
among the core sources).  Returns `none` (Python `KeyError`) for a layer
outside 1..3. -/
def MP3Bitrates (v : MPEGVersion) (layer : Nat) : Option (List Nat) :=
  match v, layer with
  | .v1, 1 => some [0, 32, 64, 96, 128, 160, 192, 224, 256, 288, 320, 352, 384, 416, 448]
  | .v1, 2 => some [0, 32, 48, 56, 64, 80, 96, 112, 128, 160, 192, 224, 256, 320, 384]
  | .v1, 3 => some [0, 32, 40, 48, 56, 64, 80, 96, 112, 128, 160, 192, 224, 256, 320]
  | _, 1 => some [0, 32, 48, 56, 64, 80, 96, 112, 128, 144, 160, 176, 192, 224, 256]
  | _, 2 => some [0, 8, 16, 24, 32, 40, 48, 56, 64, 80, 96, 112, 128, 144, 160]
  | _, 3 => some [0, 8, 16, 24, 32, 40, 48, 56, 64, 80, 96, 112, 128, 144, 160]
  | _, _ => none

/-- Modelled from the spec (§4.4, standard MPEG sample-rate table in Hz,
indexed by the 2-bit sample-rate index; index 3 is rejected earlier). -/
def MP3SampleRates (v : MPEGVersion) : List Nat :=
  match v with
  | .v1 => [44100, 48000, 32000]
  | .v2 => [22050, 24000, 16000]
  | .v25 => [11025, 12000, 8000]

/-- Modelled from the spec (§4.4, standard samples-per-frame and slot-size
table).  Returns `none` (Python `KeyError`) for a layer outside 1..3. -/
def MP3SamplesPerFrame (v : MPEGVersion) (layer : Nat) : Option (Nat × Nat) :=
  match v, layer with
  | _, 1 => some (384, 4)
  | _, 2 => some (1152, 1)
  | .v1, 3 => some (1152, 1)
  | .v2, 3 => some (576, 1)
  | .v25, 3 => some (576, 1)
  | _, _ => none

/-- `LAMEReplayGain` record (`mp3.py`).  The enum converters
(`LAMEReplayGainType`, `LAMEReplayGainOrigin`, from the non-core
`tables.py`) are kept as raw field values.  `peak` is `None` in Python
when the raw 32-bit value is zero, hence an `Option`. -/
structure LAMEReplayGain where
  peak : Option ℚ
  track_type : Nat
  track_origin : Nat
  track_adjustment : ℚ
  album_type : Nat
  album_origin : Nat
  album_adjustment : ℚ
deriving DecidableEq

/-- `LAMEReplayGain.load`: 4-byte big-endian peak, then two
`u3 u3 b1 u9` groups for track and album gain. -/
def LAMEReplayGain.load (r : DataReader) : Except Err (LAMEReplayGain × DataReader) :=
  match r.readBE 4 with
  | .error e => .error e
  | .ok (peak_data, r) =>
    let peak : Option ℚ := if peak_data = 0 then none else some ((peak_data : ℚ) / 2 ^ 23)
    let tp := r.readN 2
    if tp.1.length < 2 then .error .bitstructError else
    let t0 := tp.1.getD 0 0
    let t1 := tp.1.getD 1 0
    let track_type := t0 / 32
    let track_origin := t0 / 4 % 8
    let track_sign := t0 / 2 % 2 = 1
    let track_mag := t0 % 2 * 256 + t1
    let track_adjustment : ℚ :=
      if track_sign then -((track_mag : ℚ) / 10) else (track_mag : ℚ) / 10
    let ap := tp.2.readN 2
    if ap.1.length < 2 then .error .bitstructError else
    let a0 := ap.1.getD 0 0
    let a1 := ap.1.getD 1 0
    let album_type := a0 / 32
    let album_origin := a0 / 4 % 8
    let album_sign := a0 / 2 % 2 = 1
    let album_mag := a0 % 2 * 256 + a1
    let album_adjustment : ℚ :=
      if album_sign then -((album_mag : ℚ) / 10) else (album_mag : ℚ) / 10
    .ok (⟨peak, track_type, track_origin, track_adjustment,
          album_type, album_origin, album_adjustment⟩, ap.2)

/-- `LAMEEncodingFlags` record (`mp3.py`). -/
structure LAMEEncodingFlags where
  nogap_continuation : Bool
  nogap_continued : Bool
  nssafejoint : Bool
  nspsytune : Bool
deriving DecidableEq

/-- `LAMEHeader` record (`mp3.py`).  Enum converters from the non-core
`tables.py` are kept as raw values; `crc`/`audio_crc` keep their raw
bytes (`2s` struct fields). -/
structure LAMEHeader where
  crc : List Nat
  version : Option (Nat × Nat)
  revision : Nat
  ath_type : Nat
  audio_crc : List Nat
  audio_size : Nat
  bitrate : Nat
  bitrate_mode : Nat
  channel_mode : Nat
  delay : Nat
  encoding_flags : LAMEEncodingFlags
  lowpass_filter : Nat
  mp3_gain : Int
  noise_shaping : Nat
  padding : Nat
  preset : Nat
  replay_gain : LAMEReplayGain
  source_sample_rate : Nat
  surround_info : Nat
  unwise_settings_used : Nat
deriving DecidableEq

def isAsciiDigit (b : Nat) : Bool := 48 ≤ b && b ≤ 57

def spanDigits : List Nat → List Nat × List Nat
  | [] => ([], [])
  | b :: rest =>
    if isAsciiDigit b then
      let p := spanDigits rest
      (b :: p.1, p.2)
    else ([], b :: rest)

def digitsToNat (ds : List Nat) : Nat :=
  ds.foldl (fun acc d => acc * 10 + (d - 48)) 0

/-- The `re.search(rb'LAME(\d+)\.(\d+)', encoder)` version extraction.
Within the 9-byte window a match can only start at offset 0 (a second
`LAME` marker plus digits, dot and digits cannot fit), so this parses
digits, a dot and digits directly after the marker. -/
def parseLameVersion (encoder : List Nat) : Option (Nat × Nat) :=
  if lameMarker.isPrefixOf encoder then
    let p1 := spanDigits (encoder.drop 4)
    if p1.1 = [] then none
    else
      match p1.2 with
      | 46 :: rest2 =>
        let p2 := spanDigits rest2
        if p2.1 = [] then none
        else some (digitsToNat p1.1, digitsToNat p2.1)
      | _ => none
  else none

/-- `LAMEHeader.load`: 9-byte `LAME` marker region, then the fixed 27-byte
body in strict order.  The `xing_quality` argument is accepted and unused,
as in the source. -/
def LAMEHeader.load (r : DataReader) (_xingQuality : Option Nat) :
    Except Err (LAMEHeader × DataReader) :=
  let encp := r.readN 9
  let encoder := encp.1
  if ¬ lameMarker.isPrefixOf encoder then .error .invalidHeader else
  let version := parseLameVersion encoder
  let rb := encp.2.readN 1
  if rb.1.length < 1 then .error .bitstructError else
  let revision := rb.1.getD 0 0 / 16
  let bitrate_mode := rb.1.getD 0 0 % 16
  let lp := rb.2.readN 1
  if lp.1.length < 1 then .error .structError else
  let lowpass_filter := lp.1.getD 0 0 * 100
  match LAMEReplayGain.load lp.2 with
  | .error e => .error e
  | .ok (replay_gain, r) =>
    let fa := r.readN 1
    if fa.1.length < 1 then .error .bitstructError else
    let f := fa.1.getD 0 0
    let encoding_flags : LAMEEncodingFlags :=
      ⟨f / 128 % 2 = 1, f / 64 % 2 = 1, f / 32 % 2 = 1, f / 16 % 2 = 1⟩
    let ath_type := f % 16
    let brp := fa.2.readN 1
    if brp.1.length < 1 then .error .structError else
    let bitrate := brp.1.getD 0 0 * 1000
    let dp := brp.2.readN 3
    if dp.1.length < 3 then .error .bitstructError else
    let d0 := dp.1.getD 0 0
    let d1 := dp.1.getD 1 0
    let d2 := dp.1.getD 2 0
    let delay := d0 * 16 + d1 / 16
    let padding := d1 % 16 * 256 + d2
    let sp := dp.2.readN 1
    if sp.1.length < 1 then .error .bitstructError else
    let s := sp.1.getD 0 0
    let source_sample_rate := s / 64
    let unwise_settings_used := s / 32 % 2
    let channel_mode := s / 4 % 8
    let noise_shaping := s % 4
    let gp := sp.2.readN 1
    if gp.1.length < 1 then .error .bitstructError else
    let g := gp.1.getD 0 0
    let mp3_gain : Int := if g < 128 then (g : Int) else (g : Int) - 256
    let pp := gp.2.readN 2
    if pp.1.length < 2 then .error .bitstructError else
    let p0 := pp.1.getD 0 0
    let p1 := pp.1.getD 1 0
    let surround_info := p0 / 8 % 8
    let preset := p0 % 8 * 256 + p1
    let fin := pp.2.readN 8
    if fin.1.length < 8 then .error .structError else
    let audio_size := beNat (fin.1.take 4)
    let audio_crc := (fin.1.drop 4).take 2
    let lame_crc := (fin.1.drop 6).take 2
    .ok (⟨lame_crc, version, revision, ath_type, audio_crc, audio_size,
          bitrate, bitrate_mode, channel_mode, delay, encoding_flags,
          lowpass_filter, mp3_gain, noise_shaping, padding, preset,
          replay_gain, source_sample_rate, surround_info,
          unwise_settings_used⟩, fin.2)

/-- `XingHeader` record (`mp3.py`): fields gated by presence bits of the
flags word; `toc` keeps the raw bytes of `XingToC`. -/
structure XingHeader where
  lame : Option LAMEHeader
  num_frames : Option Nat
  num_bytes : Option Nat
  toc : Option (List Nat)
  quality : Option Nat
deriving DecidableEq

/-- `XingHeader.load`: marker check, 32-bit flags word, conditionally
present fields, then an embedded LAME header when its marker follows. -/
def XingHeader.load (r : DataReader) : Except Err (XingHeader × DataReader) :=
  let mp := r.readN 4
  if ¬ (mp.1 = xingMarker ∨ mp.1 = infoMarker) then .error .invalidHeader else
  match mp.2.readBE 4 with
  | .error e => .error e
  | .ok (flags, r) =>
    match (if flags % 2 = 1 then
            match r.readBE 4 with
            | .error e => .error e
            | .ok (v, r') => .ok (some v, r')
          else .ok (none, r) :
          Except Err (Option Nat × DataReader)) with
    | .error e => .error e
    | .ok (num_frames, r) =>
      match (if flags / 2 % 2 = 1 then
              match r.readBE 4 with
              | .error e => .error e
              | .ok (v, r') => .ok (some v, r')
            else .ok (none, r) :
            Except Err (Option Nat × DataReader)) with
      | .error e => .error e
      | .ok (num_bytes, r) =>
        let tocp :=
          if flags / 4 % 2 = 1 then
            let t := r.readN 100
            (some t.1, t.2)
          else (none, r)
        match (if flags / 8 % 2 = 1 then
                match tocp.2.readBE 4 with
                | .error e => .error e
                | .ok (v, r') => .ok (some v, r')
              else .ok (none, tocp.2) :
              Except Err (Option Nat × DataReader)) with
        | .error e => .error e
        | .ok (quality, r) =>
          if r.peekN 4 = lameMarker then
            match LAMEHeader.load r quality with
            | .error e => .error e
            | .ok (lame, r') =>
              .ok (⟨some lame, num_frames, num_bytes, tocp.1, quality⟩, r')
          else
            .ok (⟨none, num_frames, num_bytes, tocp.1, quality⟩, r)

/-- `VBRIHeader` record (`mp3.py`).  `delay` keeps the raw 16-bit field;
the source decodes it as an IEEE half-precision float (`'>e'`), a value no
verified claim consults. -/
structure VBRIHeader where
  version : Nat
  delay : Nat
  quality : Nat
  num_bytes : Nat
  num_frames : Nat
  num_toc_entries : Nat
  toc_scale_factor : Nat
  toc_entry_num_bytes : Nat
  toc_entry_num_frames : Nat
  toc : List Nat
deriving DecidableEq

def readVbriToc : Nat → Nat → DataReader → Except Err (List Nat × DataReader)
  | 0, _, r => .ok ([], r)
  | n + 1, w, r =>
    match r.readBE w with
    | .error e => .error e
    | .ok (v, r) =>
      match readVbriToc n w r with
      | .error e => .error e
      | .ok (vs, r) => .ok (v :: vs, r)

/-- `VBRIHeader.load`: marker check, fixed-layout preamble, entry-size
validation (2 or 4 bytes, else `InvalidHeader`), then the ToC entries. -/
def VBRIHeader.load (r : DataReader) : Except Err (VBRIHeader × DataReader) :=
  let mp := r.readN 4
  if mp.1 ≠ vbriMarker then .error .invalidHeader else
  match mp.2.readBE 2 with
  | .error e => .error e
  | .ok (version, r) =>
  match r.readBE 2 with
  | .error e => .error e
  | .ok (delay, r) =>
  match r.readBE 2 with
  | .error e => .error e
  | .ok (quality, r) =>
  match r.readBE 4 with
  | .error e => .error e
  | .ok (num_bytes, r) =>
  match r.readBE 4 with
  | .error e => .error e
  | .ok (num_frames, r) =>
  match r.readBE 2 with
  | .error e => .error e
  | .ok (num_toc_entries, r) =>
  match r.readBE 2 with
  | .error e => .error e
  | .ok (toc_scale_factor, r) =>
  match r.readBE 2 with
  | .error e => .error e
  | .ok (toc_entry_num_bytes, r) =>
  match r.readBE 2 with
  | .error e => .error e
  | .ok (toc_entry_num_frames, r) =>
    let toc_size := num_toc_entries * toc_entry_num_bytes
    if ¬ (toc_entry_num_bytes = 2 ∨ toc_entry_num_bytes = 4) then
      .error .invalidHeader
    else
      match readVbriToc (toc_size / toc_entry_num_bytes) toc_entry_num_bytes r with
      | .error e => .error e
      | .ok (toc, r) =>
        .ok (⟨version, delay, quality, num_bytes, num_frames, num_toc_entries,
              toc_scale_factor, toc_entry_num_bytes, toc_entry_num_frames,
              toc⟩, r)

/-- `MPEGFrameHeader` record (`mp3.py`).  `protected'` is the source's
`protected` attribute (a Python keyword-free name is required in Lean);
`padded` keeps the raw 1-bit value, which the source stores unconverted
and adds into the frame-size formula. -/
structure MPEGFrameHeader where
  start : Nat
  size : Nat
  vbri : Option VBRIHeader
  xing : Option XingHeader
  version : MPEGVersion
  layer : Nat
  protected' : Bool
  padded : Nat
  bitrate : Nat
  channel_mode : Nat
  channels : Nat
  sample_rate : Nat
deriving DecidableEq

/-- The Xing probe of `MPEGFrameHeader.load`: seek to the
version/channel-mode-dependent offset, and when a `Xing`/`Info` marker is
present decode a `XingHeader` from the next `frame_size` bytes (which the
source hands to a fresh reader via the `datareader` decorator). -/
def probeXing (r : DataReader) (frame_start xstart frame_size : Nat) :
    Except Err (Option XingHeader) × DataReader :=
  let r := r.seekSet (frame_start + xstart)
  if r.peekN 4 = xingMarker ∨ r.peekN 4 = infoMarker then
    let cp := r.readN frame_size
    match XingHeader.load ⟨cp.1, 0⟩ with
    | .error e => (.error e, cp.2)
    | .ok (xh, _) => (.ok (some xh), cp.2)
  else (.ok none, r)

/-- The VBRI probe of `MPEGFrameHeader.load`: seek to offset 36 from the
frame start and decode a `VBRIHeader` when its marker is present (on the
main reader, unlike the Xing probe). -/
def probeVbri (r : DataReader) (frame_start : Nat) :
    Except Err (Option VBRIHeader × DataReader) :=
  let r := r.seekSet (frame_start + 36)
  if r.peekN 4 = vbriMarker then
    match VBRIHeader.load r with
    | .error e => .error e
    | .ok (vh, r') => .ok (some vh, r')
  else .ok (none, r)

/-- `MPEGFrameHeader.load`: 4-byte header decode with sync-word and
reserved-field validation, frame-size computation from the tables, and
the Xing/VBRI probes for layer-3 frames.  Errors carry the reader in the
state it had when the Python exception was raised, because the caller's
`except` clause resumes from that position. -/
def MPEGFrameHeader.load (r : DataReader) :
    Except Err MPEGFrameHeader × DataReader :=
  let frame_start := r.pos
  let hp := r.readN 2
  if hp.1.length < 2 then (.error .bitstructError, hp.2) else
  let b0 := hp.1.getD 0 0
  let b1 := hp.1.getD 1 0
  let sync := (b0 * 256 + b1) / 32
  let version_id := b1 / 8 % 4
  let layer_index := b1 / 2 % 4
  let protection := b1 % 2 = 1
  if sync ≠ 2047 then (.error .invalidFrame, hp.2) else
  let bp := hp.2.readN 1
  if bp.1.length < 1 then (.error .bitstructError, bp.2) else
  let b2 := bp.1.getD 0 0
  let bitrate_index := b2 / 16
  let sample_rate_index := b2 / 4 % 4
  let padded := b2 / 2 % 2
  if version_id = 1 ∨ layer_index = 0 ∨ bitrate_index = 0 ∨
      bitrate_index = 15 ∨ sample_rate_index = 3 then
    (.error .invalidFrame, bp.2)
  else
  let cp := bp.2.readN 1
  if cp.1.length < 1 then (.error .bitstructError, cp.2) else
  let channel_mode := cp.1.getD 0 0 / 64
  let channels := if channel_mode = 3 then 1 else 2
  let version := if version_id = 0 then MPEGVersion.v25
                 else if version_id = 2 then MPEGVersion.v2
                 else MPEGVersion.v1
  let layer := 4 - layer_index
  match MP3Bitrates version layer, MP3SamplesPerFrame version layer with
  | some row, some sps =>
    let bitrate := row.getD bitrate_index 0 * 1000
    let sample_rate := (MP3SampleRates version).getD sample_rate_index 0
    let frame_size := (sps.1 / 8 * bitrate / sample_rate + padded) * sps.2
    if layer = 3 then
      let xstart :=
        if version = MPEGVersion.v1 then
          if channel_mode ≠ 3 then 36 else 21
        else
          if channel_mode ≠ 3 then 21 else 13
      match probeXing cp.2 frame_start xstart frame_size with
      | (.error e, r) => (.error e, r)
      | (.ok xing, r) =>
        match probeVbri r frame_start with
        | .error e => (.error e, r)
        | .ok (vbri, r) =>
          (.ok ⟨frame_start, frame_size, vbri, xing, version, layer,
                ¬ protection, padded, bitrate, channel_mode, channels,
                sample_rate⟩, r)
    else
      (.ok ⟨frame_start, frame_size, none, none, version, layer,
            ¬ protection, padded, bitrate, channel_mode, channels,
            sample_rate⟩, cp.2)
  | _, _ => (.error .keyError, cp.2)

/-- The exception classes caught by the `except (InvalidFrame,
bitstruct.Error)` clause inside `MP3StreamInfo.find_mp3_frames`. -/
def caughtByFrameScan (e : Err) : Bool :=
  match e with
  | .invalidFrame => true
  | .bitstructError => true
  | _ => false

/-- The inner `for _ in range(4)` loop of `find_mp3_frames`: load up to
`n` consecutive frame headers, seeking to `start + size` after each one,
stopping early on a frame that carries a Xing header; a caught decode
failure seeks one byte forward from where the exception was raised and
ends the run, any other exception propagates. -/
def MP3StreamInfo.scanFrames :
    Nat → DataReader → List MPEGFrameHeader →
    Except Err (List MPEGFrameHeader × DataReader)
  | 0, r, acc => .ok (acc, r)
  | n + 1, r, acc =>
    match MPEGFrameHeader.load r with
    | (.ok f, r') =>
      if f.xing.isSome then .ok (acc ++ [f], r')
      else MP3StreamInfo.scanFrames n (r'.seekSet (f.start + f.size)) (acc ++ [f])
    | (.error e, r') =>
      if caughtByFrameScan e then .ok (acc, r'.seekCur 1)
      else .error e

/-- Lines 527-532 of `mp3.py`: when the scan loop ends with no accepted
run, fall back to the cached run when one exists, else raise
`InvalidFormat` (the spec's `InsufficientAudioData`). -/
def MP3StreamInfo.finishScan (cached : Option (List MPEGFrameHeader))
    (r : DataReader) : Except Err (List MPEGFrameHeader × DataReader) :=
  match cached with
  | none => .error .invalidFormat
  | some c => .ok (c, r)

/-- The `while len(buffer) >= buffer_size` loop of `find_mp3_frames`,
with the cached fallback run threaded explicitly and a fuel parameter in
place of the Python loop's implicit termination. -/
def MP3StreamInfo.findLoop :
    Nat → DataReader → Option (List MPEGFrameHeader) →
    Except Err (List MPEGFrameHeader × DataReader)
  | 0, _, _ => .error .outOfFuel
  | fuel + 1, r, cached =>
    if (r.peekN 128).length < 128 then MP3StreamInfo.finishScan cached r
    else
      match (r.peekN 128).findIdx? (fun b => b == 255) with
      | none => MP3StreamInfo.findLoop fuel (r.seekCur 128) cached
      | some sync_start =>
        if ((r.seekCur sync_start).peekN 2).length < 2 then
          .error .bitstructError
        else if (((r.seekCur sync_start).peekN 2).getD 0 0 * 256 +
            ((r.seekCur sync_start).peekN 2).getD 1 0) / 32 = 2047 then
          match MP3StreamInfo.scanFrames 4 (r.seekCur sync_start) [] with
          | .error e => .error e
          | .ok (frames, r) =>
            match frames with
            | [] => MP3StreamInfo.findLoop fuel r cached
            | f0 :: rest =>
              if 4 ≤ (f0 :: rest).length ∨ f0.xing.isSome then
                .ok (f0 :: rest, r)
              else
                MP3StreamInfo.findLoop fuel r
                  (if 2 ≤ (f0 :: rest).length ∧ cached = none then
                    some (f0 :: rest)
                  else cached)
        else
          -- the stream was already advanced by `sync_start` (line 501)
          -- before the failed check; line 515 seeks `sync_start + 1` more
          MP3StreamInfo.findLoop fuel
            ((r.seekCur sync_start).seekCur (sync_start + 1)) cached

/-- `MP3StreamInfo.find_mp3_frames` (`mp3.py` lines 486-533). -/
def MP3StreamInfo.find_mp3_frames (fuel : Nat) (r : DataReader) :
    Except Err (List MPEGFrameHeader × DataReader) :=
  MP3StreamInfo.findLoop fuel r none

/-- `MP3BitrateMode` values used by the stream-info computation (the enum
lives in the non-core `tables.py`; the four modes are named by the spec's
glossary). -/
inductive MP3BitrateMode where
  | unknown
  | cbr
  | vbr
  | abr
deriving DecidableEq

/-- Python's `bytes.rfind`: the greatest index at which `needle` occurs
in `hay`, or `none` when it does not occur. -/
def rfindIdx (needle hay : List Nat) : Option Nat :=
  (((List.range (hay.length + 1)).filter
      (fun i => needle.isPrefixOf (hay.drop i)))).getLast?

def endTagMarkers : List (List Nat) :=
  [apetagexMarker, lyricsbeginMarker, tagMarker]

/-- Lines 555-563 of `mp3.py`: for each trailing-tag marker take
`len(end_buffer) - rfind(marker)` when `rfind` is strictly positive, and
keep the largest such offset (0 when nothing qualifies). -/
def MP3StreamInfo.computeEndTagOffset (buf : List Nat) : Nat :=
  endTagMarkers.foldl
    (fun acc m =>
      match rfindIdx m buf with
      | some i =>
        if 0 < i then
          if acc < buf.length - i then buf.length - i else acc
        else acc
      | none => acc) 0

/-- Lines 574-586 of `mp3.py`: total samples from a Xing frame count,
with the LAME delay+padding subtracted only when samples would remain. -/
def MP3StreamInfo.xingNumSamples (samples_per_frame nf : Nat)
    (lame : Option LAMEHeader) : Nat :=
  let ns0 := samples_per_frame * nf
  match lame with
  | some l => if l.delay + l.padding < ns0 then ns0 - (l.delay + l.padding) else ns0
  | none => ns0

/-- `MP3StreamInfo` record (`mp3.py`).  `size` is an `Int` because the
Python subtraction `audio_end - audio_start` can go negative; `bitrate`
and `duration` are rationals standing for the Python floats. -/
structure MP3StreamInfo where
  start : Nat
  end_ : Nat
  size : Int
  vbri : Option VBRIHeader
  xing : Option XingHeader
  version : MPEGVersion
  layer : Nat
  protected' : Bool
  bitrate : ℚ
  bitrate_mode : MP3BitrateMode
  channel_mode : Nat
  channels : Nat
  duration : ℚ
  sample_rate : Nat
deriving DecidableEq

/-- Lines 603-636 of `mp3.py`: the bitrate / duration computation and the
final record.  A zero divisor raises `ZeroDivisionError` exactly where
Python's true division would. -/
def MP3StreamInfo.assemble (f0 : MPEGFrameHeader)
    (vbri : Option VBRIHeader) (xing : Option XingHeader)
    (audio_start audio_end : Nat) (audio_size : Int)
    (bitrate_mode : MP3BitrateMode) (num_samples : ℚ) :
    Except Err MP3StreamInfo :=
  match (if bitrate_mode = MP3BitrateMode.cbr then
          Except.ok (f0.bitrate : ℚ)
        else if num_samples = 0 then Except.error Err.zeroDivisionError
        else if xing.isSome then
          Except.ok ((((audio_size - (f0.size : Int) : Int) : ℚ) * 8 *
            (f0.sample_rate : ℚ)) / num_samples)
        else
          Except.ok (((audio_size : ℚ) * 8 * (f0.sample_rate : ℚ)) / num_samples) :
        Except Err ℚ) with
  | .error e => .error e
  | .ok bitrate =>
    if bitrate = 0 then .error .zeroDivisionError
    else
      .ok ⟨audio_start, audio_end, audio_size, vbri, xing, f0.version,
           f0.layer, f0.protected', bitrate, bitrate_mode, f0.channel_mode,
           f0.channels, ((audio_size : ℚ) * 8) / bitrate, f0.sample_rate⟩

/-- Lines 542-553 of `mp3.py`: the end buffer searched for trailing tag
markers — the last 64 KiB of the data, or all of it when smaller. -/
def MP3StreamInfo.endBuffer (r : DataReader) : List Nat :=
  if 64 * 1024 < r.data.length then r.data.drop (r.data.length - 64 * 1024)
  else r.data

/-- Lines 542-566 of `mp3.py`: the audio end offset — the file end minus
the detected trailing-tag offset. -/
def MP3StreamInfo.audioEnd (r : DataReader) : Nat :=
  r.data.length -
    MP3StreamInfo.computeEndTagOffset (MP3StreamInfo.endBuffer r)

/-- Lines 588-593 of `mp3.py`: bitrate mode from the LAME bitrate-mode
code groups (UNKNOWN when no LAME header or an unmapped code). -/
def lameDerivedMode (lame : Option LAMEHeader) : MP3BitrateMode :=
  match lame with
  | some l =>
    if l.bitrate_mode = 1 ∨ l.bitrate_mode = 8 then MP3BitrateMode.cbr
    else if l.bitrate_mode = 2 ∨ l.bitrate_mode = 9 then MP3BitrateMode.abr
    else if l.bitrate_mode = 3 ∨ l.bitrate_mode = 4 ∨
        l.bitrate_mode = 5 ∨ l.bitrate_mode = 6 then MP3BitrateMode.vbr
    else MP3BitrateMode.unknown
  | none => MP3BitrateMode.unknown

/-- Lines 540-636 of `mp3.py` (`MP3StreamInfo.load` after the frame
scan): trailing-tag exclusion, bitrate-mode selection over the Xing /
VBRI / plain-run branches, and assembly of the stream-info record.
An empty frame list would be Python's `frames[0]` `IndexError`; a Xing
header without a frame count is the `samples_per_frame * None`
`TypeError`. -/
def MP3StreamInfo.compute (frames : List MPEGFrameHeader) (r : DataReader) :
    Except Err MP3StreamInfo :=
  match frames with
  | [] => .error .indexError
  | f0 :: rest =>
    match MP3SamplesPerFrame f0.version f0.layer with
    | none => .error .keyError
    | some sps =>
      match f0.xing with
      | some xing =>
        match xing.num_frames with
        | none => .error .typeError
        | some nf =>
          MP3StreamInfo.assemble f0 f0.vbri (some xing) f0.start
            (MP3StreamInfo.audioEnd r)
            ((MP3StreamInfo.audioEnd r : Int) - (f0.start : Int))
            (lameDerivedMode xing.lame)
            ((MP3StreamInfo.xingNumSamples sps.1 nf xing.lame : Nat) : ℚ)
      | none =>
        match f0.vbri with
        | some vbri =>
          MP3StreamInfo.assemble f0 (some vbri) none f0.start
            (MP3StreamInfo.audioEnd r)
            ((MP3StreamInfo.audioEnd r : Int) - (f0.start : Int))
            MP3BitrateMode.vbr ((sps.1 * vbri.num_frames : Nat) : ℚ)
        | none =>
          if f0.size = 0 then .error .zeroDivisionError
          else
            -- `more_itertools.all_equal` over the nonempty bitrate list is
            -- equality of every entry with the first one
            MP3StreamInfo.assemble f0 none none f0.start
              (MP3StreamInfo.audioEnd r)
              ((MP3StreamInfo.audioEnd r : Int) - (f0.start : Int))
              (if (f0 :: rest).all (fun fr => fr.bitrate = f0.bitrate) then
                MP3BitrateMode.cbr
              else MP3BitrateMode.unknown)
              ((sps.1 : ℚ) *
                ((((MP3StreamInfo.audioEnd r : Int) - (f0.start : Int) : Int) : ℚ) /
                  (f0.size : ℚ)))

/-- `MP3StreamInfo.load` (`mp3.py` lines 535-636): frame scan followed by
the stream-info computation on the same reader. -/
def MP3StreamInfo.load (fuel : Nat) (r : DataReader) :
    Except Err MP3StreamInfo :=
  match MP3StreamInfo.find_mp3_frames fuel r with
  | .error e => .error e
  | .ok (frames, r') => MP3StreamInfo.compute frames r'

/-- `ID3Version` members reachable from `ID3v2Header.load`.  Modelled
from the spec (§4.2: exactly the three supported minor versions 2/3/4;
the enum lives in the non-core `tables.py`). -/
inductive ID3Version where
  | v22
  | v23
  | v24
deriving DecidableEq

/-- `ID3v2Flags` record (`id3v2.py`). -/
structure ID3v2Flags where
  unsync : Bool
  extended : Bool
  experimental : Bool
  footer : Bool
deriving DecidableEq

/-- `ID3v2Header` record (`id3v2.py`). -/
structure ID3v2Header where
  size : Nat
  version : ID3Version
  flags : ID3v2Flags
deriving DecidableEq

/-- Modelled from the spec (§4.1): synchsafe decoding concatenates the
low `per_byte` bits of each byte most-significant-first and fails with
`MalformedInteger` when a byte uses its reserved high bits
(`decode_synchsafe_int` lives in the non-core `utils.py`). -/
def decode_synchsafe_int (bs : List Nat) (per_byte : Nat) : Except Err Nat :=
  if bs.any (fun b => 2 ^ per_byte ≤ b) then .error .malformedInteger
  else .ok (bs.foldl (fun acc b => acc * 2 ^ per_byte + b) 0)

/-- `ID3v2Header.load` (`id3v2.py` lines 257-284): marker check, version
mapping (unsupported majors raise `ValueError`), the four flag bits from
the high-order bits of the flags byte, and the 4-byte synchsafe size. -/
def ID3v2Header.load (r : DataReader) : Except Err (ID3v2Header × DataReader) :=
  if (r.readN 3).1 ≠ id3Marker then .error .invalidHeader else
  if ((r.readN 3).2.readN 7).1.length < 7 then .error .structError else
  match (if ((r.readN 3).2.readN 7).1.getD 0 0 = 2 then some ID3Version.v22
         else if ((r.readN 3).2.readN 7).1.getD 0 0 = 3 then some ID3Version.v23
         else if ((r.readN 3).2.readN 7).1.getD 0 0 = 4 then some ID3Version.v24
         else none) with
  | none => .error .valueError
  | some version =>
    match decode_synchsafe_int (((r.readN 3).2.readN 7).1.drop 3) 7 with
    | .error e => .error e
    | .ok size =>
      .ok (⟨size, version,
            ⟨(((r.readN 3).2.readN 7).1.getD 2 0).testBit 7,
             (((r.readN 3).2.readN 7).1.getD 2 0).testBit 6,
             (((r.readN 3).2.readN 7).1.getD 2 0).testBit 5,
             (((r.readN 3).2.readN 7).1.getD 2 0).testBit 4⟩⟩,
           ((r.readN 3).2.readN 7).2)

/-- `ID3v2Frames._v22_FIELD_MAP` (`id3v2.py`). -/
def v22FieldMap : List (String × String) :=
  [("album", "TAL"), ("albumartist", "TP2"), ("artist", "TP1"),
   ("audiodelay", "TDY"), ("audiolength", "TLE"), ("audiosize", "TSI"),
   ("bpm", "TBP"), ("comment", "COM"), ("composer", "TCM"),
   ("conductor", "TP3"), ("copyright", "TCR"), ("date", "TYE"),
   ("discnumber", "TPA"), ("encodedby", "TEN"), ("encodersettings", "TSS"),
   ("genre", "TCO"), ("grouping", "TT1"), ("isrc", "TRC"),
   ("label", "TPB"), ("language", "TLA"), ("lyricist", "TXT"),
   ("lyrics", "ULT"), ("media", "TMT"), ("originalalbum", "TOT"),
   ("originalartist", "TOA"), ("originalauthor", "TOL"),
   ("originaldate", "TOR"), ("pictures", "PIC"), ("playcount", "CNT"),
   ("remixer", "TP4"), ("subtitle", "TT3"), ("title", "TT2"),
   ("tracknumber", "TRK")]

/-- `ID3v2Frames._v23_FIELD_MAP` (`id3v2.py`). -/
def v23FieldMap : List (String × String) :=
  [("album", "TALB"), ("albumsort", "TSOA"), ("albumartist", "TPE2"),
   ("albumartistsort", "TSO2"), ("artist", "TPE1"), ("artistsort", "TSOP"),
   ("audiodelay", "TDLY"), ("audiolength", "TLEN"), ("audiosize", "TSIZ"),
   ("bpm", "TBPM"), ("comment", "COMM"), ("compilation", "TCMP"),
   ("composer", "TCOM"), ("composersort", "TSOC"), ("conductor", "TPE3"),
   ("copyright", "TCOP"), ("date", "TYER"), ("discnumber", "TPOS"),
   ("encodedby", "TENC"), ("encodersettings", "TSSE"), ("genre", "TCON"),
   ("grouping", "TIT1"), ("isrc", "TSRC"), ("label", "TPUB"),
   ("language", "TLAN"), ("lyricist", "TEXT"), ("lyrics", "USLT"),
   ("media", "TMED"), ("originalalbum", "TOAL"), ("originalartist", "TOPE"),
   ("originalauthor", "TOLY"), ("originaldate", "TORY"),
   ("pictures", "APIC"), ("playcount", "PCNT"), ("remixer", "TPE4"),
   ("subtitle", "TIT3"), ("title", "TIT2"), ("titlesort", "TSOT"),
   ("tracknumber", "TRCK")]

/-- `ID3v2Frames._v24_FIELD_MAP` (`id3v2.py`). -/
def v24FieldMap : List (String × String) :=
  [("album", "TALB"), ("albumsort", "TSOA"), ("albumartist", "TPE2"),
   ("albumartistsort", "TSO2"), ("artist", "TPE1"), ("artistsort", "TSOP"),
   ("audiodelay", "TDLY"), ("audiolength", "TLEN"), ("audiosize", "TSIZ"),
   ("bpm", "TBPM"), ("comment", "COMM"), ("compilation", "TCMP"),
   ("composer", "TCOM"), ("composersort", "TSOC"), ("conductor", "TPE3"),
   ("copyright", "TCOP"), ("date", "TDRC"), ("discnumber", "TPOS"),
   ("encodedby", "TENC"), ("encodersettings", "TSSE"), ("genre", "TCON"),
   ("grouping", "TIT1"), ("isrc", "TSRC"), ("label", "TPUB"),
   ("language", "TLAN"), ("lyricist", "TEXT"), ("lyrics", "USLT"),
   ("media", "TMED"), ("mood", "TMOO"), ("originalalbum", "TOAL"),
   ("originalartist", "TOPE"), ("originalauthor", "TOLY"),
   ("originaldate", "TDOR"), ("pictures", "APIC"), ("playcount", "PCNT"),
   ("remixer", "TPE4"), ("subtitle", "TIT3"), ("title", "TIT2"),
   ("titlesort", "TSOT"), ("tracknumber", "TRCK")]

def fieldMapFor (v : ID3Version) : List (String × String) :=
  match v with
  | .v22 => v22FieldMap
  | .v23 => v23FieldMap
  | .v24 => v24FieldMap

/-- `Tags.FIELD_MAP.get(key, key)` (`models.py`): canonical key to raw
frame id, with the key itself as fallback. -/
def fieldMapGet (m : List (String × String)) (key : String) : String :=
  (((m.find? (fun p => p.1 = key))).map (fun p => p.2)).getD key

/-- One stored value of the aggregated tag mapping: a plain value set by
a text/genre frame, or the list built up by `defaultdict(list).append`
(GEOB entries carry their filename/mime structure). -/
inductive TagEntry where
  | str (s : String)
  | geobEntry (filename mime value : String)
deriving DecidableEq

inductive TagVal where
  | single (s : String)
  | many (l : List TagEntry)
deriving DecidableEq

def lookupTag (d : List (String × TagVal)) (k : String) : Option TagVal :=
  ((d.find? (fun p => p.1 = k))).map (fun p => p.2)

/-- `frames[k] = value`: plain assignment replaces any prior value. -/
def setTag (d : List (String × TagVal)) (k : String) (v : String) :
    List (String × TagVal) :=
  if d.any (fun p => p.1 = k) then
    d.map (fun p => if p.1 = k then (k, TagVal.single v) else p)
  else d ++ [(k, TagVal.single v)]

/-- `frames[k].append(e)` on a `defaultdict(list)`: a missing key starts
a fresh list; appending to a value previously *assigned* (a non-list) is
Python's `AttributeError`, hence `none`. -/
def appendTag (d : List (String × TagVal)) (k : String) (e : TagEntry) :
    Option (List (String × TagVal)) :=
  match d.find? (fun p => p.1 = k) with
  | none => some (d ++ [(k, TagVal.many [e])])
  | some (_, .many l) =>
    some (d.map (fun p => if p.1 = k then (k, TagVal.many (l ++ [e])) else p))
  | some (_, .single _) => none

/-- `Tags.__getitem__` (`models.py`): route the requested key through the
version's field map, then look it up in the mapping (a missing key is
Python's `KeyError`, hence `none`). -/
def tagsGetItem (m : List (String × String)) (d : List (String × TagVal))
    (key : String) : Option TagVal :=
  lookupTag d (fieldMapGet m key)

/-- The typed frame objects returned by the external frame-body decoder
(`id3v2_frames.py`, outside the core).  Constructors mirror the classes
the aggregator dispatches on; each carries exactly the attributes the
aggregator reads. -/
inductive ID3v2FrameObj where
  | comment (id description language value : String)
  | synchronizedLyrics (id description language value : String)
  | unsynchronizedLyrics (id description language value : String)
  | genre (id value : String)
  | geob (description filename mime_type value : String)
  | privateFrame (id owner value : String)
  | userText (id description value : String)
  | userURLLink (id description value : String)
  | numericText (id value : String)
  | text (id value : String)
  | timestamp (id value : String)
  | other (id value : String)
deriving DecidableEq

/-- One step of the frame-decoder stream consumed by the aggregation
loop: a decoded frame, an unclassifiable oddity (skipped), or an
`InvalidFrame` failure (ends the scan). -/
inductive ID3v2FrameItem where
  | frame (f : ID3v2FrameObj)
  | oddity
  | invalid
deriving DecidableEq

/-- The per-frame dispatch of `ID3v2Frames.load` (`id3v2.py` lines
189-229), in source order.  Note the genre arm stores under the literal
key `TCON` for every tag version. -/
def foldFrame (d : List (String × TagVal)) (f : ID3v2FrameObj) :
    Option (List (String × TagVal)) :=
  match f with
  | .comment id desc lang v => appendTag d (id ++ ":" ++ desc ++ ":" ++ lang) (.str v)
  | .synchronizedLyrics id desc lang v =>
    appendTag d (id ++ ":" ++ desc ++ ":" ++ lang) (.str v)
  | .unsynchronizedLyrics id desc lang v =>
    appendTag d (id ++ ":" ++ desc ++ ":" ++ lang) (.str v)
  | .genre _ v => some (setTag d "TCON" v)
  | .geob desc fn mime v => appendTag d ("GEOB:" ++ desc) (.geobEntry fn mime v)
  | .privateFrame _ owner v => appendTag d ("PRIV:" ++ owner) (.str v)
  | .userText id desc v => appendTag d (id ++ ":" ++ desc) (.str v)
  | .userURLLink id desc v => appendTag d (id ++ ":" ++ desc) (.str v)
  | .numericText id v => some (setTag d id v)
  | .text id v => some (setTag d id v)
  | .timestamp id v => some (setTag d id v)
  | .other id v => appendTag d id (.str v)

/-- The `while True` aggregation loop of `ID3v2Frames.load`: fold frames
into the mapping, skip oddities, stop at the first `InvalidFrame`. -/
def ID3v2Frames.aggregate :
    List ID3v2FrameItem → List (String × TagVal) →
    Except Err (List (String × TagVal))
  | [], d => .ok d
  | .invalid :: _, d => .ok d
  | .oddity :: rest, d => ID3v2Frames.aggregate rest d
  | .frame f :: rest, d =>
    match foldFrame d f with
    | none => .error .attributeError
    | some d' => ID3v2Frames.aggregate rest d'

def bytesToString (bs : List Nat) : String :=
  String.mk (bs.map (fun b => Char.ofNat b))

def isFrameIdByte (b : Nat) : Bool :=
  (65 ≤ b && b ≤ 90) || (48 ≤ b && b ≤ 57)

/-- Modelled from the spec (§4.3/§6): classification of a decoded frame
envelope into the semantic categories the aggregator dispatches on, keyed
by the raw frame id.  Only the genre category is consulted by a verified
claim; descriptions, languages and owners that the real body decoder
would extract from the frame body are not modelled and left empty. -/
def classifyFrame (id : String) (value : String) : ID3v2FrameObj :=
  if id = "TCON" ∨ id = "TCO" then .genre id value
  else if id = "COMM" ∨ id = "COM" then .comment id "" "" value
  else if id = "USLT" ∨ id = "ULT" then .unsynchronizedLyrics id "" "" value
  else if id = "SYLT" ∨ id = "SLT" then .synchronizedLyrics id "" "" value
  else if id = "GEOB" ∨ id = "GEO" then .geob "" "" "" value
  else if id = "PRIV" then .privateFrame id "" value
  else if id = "TXXX" ∨ id = "TXX" then .userText id "" value
  else if id = "WXXX" ∨ id = "WXX" then .userURLLink id "" value
  else if id.startsWith "T" then .text id value
  else .other id value

/-- Modelled from the spec (§4.3: generic frame envelope with 3- or
4-byte id, 3- or 4-byte size — synchsafe for v2.4 — and two flag bytes
for v2.3/v2.4; a malformed envelope is a skippable `InvalidFrame`).
The real decoder lives in the non-core `id3v2_frames.py`. -/
def decodeFrameEnvelope (ver : ID3Version) (bs : List Nat) :
    Option (ID3v2FrameObj × List Nat) :=
  let idLen := match ver with | .v22 => 3 | _ => 4
  let szLen := match ver with | .v22 => 3 | _ => 4
  let flagsLen := match ver with | .v22 => 0 | _ => 2
  if bs.length < idLen + szLen + flagsLen then none
  else
    let idBytes := bs.take idLen
    if ¬ idBytes.all (fun b => isFrameIdByte b) then none
    else
      let szBytes := (bs.drop idLen).take szLen
      let sz? : Option Nat :=
        match ver with
        | .v24 =>
          match decode_synchsafe_int szBytes 7 with
          | .ok n => some n
          | .error _ => none
        | _ => some (beNat szBytes)
      match sz? with
      | none => none
      | some size =>
        let rest := bs.drop (idLen + szLen + flagsLen)
        if rest.length < size then none
        else
          some (classifyFrame (bytesToString idBytes)
                  (bytesToString (rest.take size)),
                rest.drop size)

/-- The frame-envelope decoding stream feeding the aggregation loop:
decode envelopes until one fails (`InvalidFrame` ends the scan).  The
fuel is an artifact; `length + 1` always suffices since an envelope
consumes at least its id bytes. -/
def decodeFrameStream : Nat → ID3Version → List Nat → List ID3v2FrameItem
  | 0, _, _ => [.invalid]
  | fuel + 1, ver, bs =>
    match decodeFrameEnvelope ver bs with
    | none => [.invalid]
    | some (f, rest) => .frame f :: decodeFrameStream fuel ver rest

/-- `ID3v2Frames.load` (`id3v2.py` lines 152-231) over raw bytes: the
version-specific envelope layout drives the (modelled) frame decoder and
the results are folded by the aggregation loop. -/
def ID3v2Frames.load (ver : ID3Version) (bs : List Nat) :
    Except Err (List (String × TagVal)) :=
  ID3v2Frames.aggregate (decodeFrameStream (bs.length + 1) ver bs) []

/-- `ID3v2` container (`id3v2.py`): header, total parsed size, aggregated
tags and the extracted picture list (`none` when no picture frame key was
present). -/
structure ID3v2 where
  header : ID3v2Header
  size : Nat
  tags : List (String × TagVal)
  pictures : Option TagVal
deriving DecidableEq

/-- The post-header tail of `ID3v2.load` (`id3v2.py` lines 320-330): add
10 to the total size when the footer flag is set (reading past those
bytes), decode the frames from the next `header size` bytes, and pop the
picture key out of the mapping. -/
def ID3v2.loadTail (hdr : ID3v2Header) (size1 : Nat) (r : DataReader) :
    Except Err (ID3v2 × DataReader) :=
  match ID3v2Frames.load hdr.version
      (((if hdr.flags.footer then (r.readN 10).2 else r).readN hdr.size)).1 with
  | .error e => .error e
  | .ok tags =>
    .ok (⟨hdr, (if hdr.flags.footer then size1 + 10 else size1),
          tags.filter
            (fun p => p.1 ≠ fieldMapGet (fieldMapFor hdr.version) "pictures"),
          lookupTag tags (fieldMapGet (fieldMapFor hdr.version) "pictures")⟩,
         ((if hdr.flags.footer then (r.readN 10).2 else r).readN hdr.size).2)

/-- `ID3v2.load` (`id3v2.py` lines 297-330): header from the first 10
bytes, `_size = 10 + header size`, plus the extended-header size when the
extended flag is set (the source's `self._header is ID3Version.v24`
comparison is an identity test between a header object and an enum
member, which is always false, so `ext_size` bytes are always read), plus
the footer/frames tail. -/
def ID3v2.load (r : DataReader) : Except Err (ID3v2 × DataReader) :=
  if r.peekN 3 ≠ id3Marker then .error .invalidHeader else
  match ID3v2Header.load ⟨(r.readN 10).1, 0⟩ with
  | .error e => .error e
  | .ok (hdr, _) =>
    if hdr.flags.extended then
      if ((r.readN 10).2.readN 4).1.length < 4 then Except.error Err.structError
      else
        match decode_synchsafe_int ((r.readN 10).2.readN 4).1 7 with
        | .error e => .error e
        | .ok ext_size =>
          ID3v2.loadTail hdr (10 + hdr.size + ext_size)
            ((((r.readN 10).2.readN 4).2.readN ext_size).2)
    else ID3v2.loadTail hdr (10 + hdr.size) (r.readN 10).2

instance {e a : Type} [DecidableEq e] [DecidableEq a] :
    DecidableEq (Except e a) := fun x y =>
  match x, y with
  | .ok u, .ok v =>
    if h : u = v then isTrue (by rw [h]) else isFalse (by simp [h])
  | .error u, .error v =>
    if h : u = v then isTrue (by rw [h]) else isFalse (by simp [h])
  | .ok _, .error _ => isFalse (by simp)
  | .error _, .ok _ => isFalse (by simp)

/-! ## Theorems -/

/-- Whether the first frame of a run carries a Xing header
(`frames[0]._xing` under the guard `frames`). -/
def firstHasXing : List MPEGFrameHeader → Bool
  | [] => false
  | f :: _ => f.xing.isSome

theorem mp3_findLoop_inv (fuel : Nat) :
    ∀ (r : DataReader) (cached : Option (List MPEGFrameHeader))
      (frames : List MPEGFrameHeader) (r₂ : DataReader),
    (∀ c, cached = some c → 2 ≤ c.length) →
    MP3StreamInfo.findLoop fuel r cached = .ok (frames, r₂) →
    frames ≠ [] ∧ (2 ≤ frames.length ∨ firstHasXing frames = true) := by
  induction fuel with
  | zero =>
    intro r cached frames r₂ hc h
    simp [MP3StreamInfo.findLoop] at h
  | succ n ih =>
    intro r cached frames r₂ hc h
    rw [MP3StreamInfo.findLoop] at h
    split at h
    · unfold MP3StreamInfo.finishScan at h
      cases cached with
      | none => simp at h
      | some c =>
        have hcl := hc c rfl
        cases h
        refine ⟨?_, Or.inl hcl⟩
        intro hnil
        rw [hnil] at hcl
        simp at hcl
    · split at h
      · exact ih _ _ _ _ hc h
      · split at h
        · simp at h
        · split at h
          · split at h
            · simp at h
            · split at h
              · exact ih _ _ _ _ hc h
              · split at h
                · rename_i hacc
                  simp only [Except.ok.injEq, Prod.mk.injEq] at h
                  obtain ⟨hfr, hr⟩ := h
                  subst hfr
                  refine ⟨by simp, ?_⟩
                  rcases hacc with h4 | hx
                  · exact Or.inl (le_trans (by norm_num) h4)
                  · exact Or.inr (by simp [firstHasXing, hx])
                · refine ih _ _ _ _ ?_ h
                  intro c hcc
                  split at hcc
                  · rename_i hcond
                    cases hcc
                    exact hcond.1
                  · exact hc c hcc
          · exact ih _ _ _ _ hc h

/-- C1: (i) every frame list the scan returns is nonempty and has ≥2
frames or a leading Xing frame — it is an accepted run or the cached
≥2-frame fallback; (ii) in any loop iteration whose candidate passes the
sync check, a decoded run that reaches 4 frames or whose first frame
carries a Xing header is accepted: the loop stops and returns exactly
that run; (iii) when the lookahead window is exhausted the loop ends in
`finishScan`, which (iv) fails with `InvalidFormat` — the error the spec
names `InsufficientAudioData` — and returns no frame list when no run is
cached, and (v) returns the cached run when one exists. -/
theorem find_mp3_frames_run_guarantee :
    (∀ (fuel : Nat) (r : DataReader) frames r₂,
      MP3StreamInfo.find_mp3_frames fuel r = .ok (frames, r₂) →
      frames ≠ [] ∧ (2 ≤ frames.length ∨ firstHasXing frames = true))
  ∧ (∀ (fuel : Nat) (r : DataReader) (cached : Option (List MPEGFrameHeader))
      (sync_start : Nat) (frames : List MPEGFrameHeader) (r₂ : DataReader),
      ¬ (r.peekN 128).length < 128 →
      (r.peekN 128).findIdx? (fun b => b == 255) = some sync_start →
      ¬ ((r.seekCur sync_start).peekN 2).length < 2 →
      (((r.seekCur sync_start).peekN 2).getD 0 0 * 256 +
        ((r.seekCur sync_start).peekN 2).getD 1 0) / 32 = 2047 →
      MP3StreamInfo.scanFrames 4 (r.seekCur sync_start) [] = .ok (frames, r₂) →
      frames ≠ [] →
      (4 ≤ frames.length ∨ firstHasXing frames = true) →
      MP3StreamInfo.findLoop (fuel + 1) r cached = .ok (frames, r₂))
  ∧ (∀ (fuel : Nat) (r : DataReader) cached,
      (r.peekN 128).length < 128 →
      MP3StreamInfo.findLoop (fuel + 1) r cached =
        MP3StreamInfo.finishScan cached r)
  ∧ (∀ r', MP3StreamInfo.finishScan none r' = .error .invalidFormat)
  ∧ (∀ c r', MP3StreamInfo.finishScan (some c) r' = .ok (c, r')) := by
  refine ⟨?_, ?_, ?_, fun r' => rfl, fun c r' => rfl⟩
  · intro fuel r frames r₂ h
    exact mp3_findLoop_inv fuel r none frames r₂ (fun c hc => by simp at hc) h
  · intro fuel r cached sync_start frames r₂ hbuf hfind htwo h2047 hscan hne hacc
    obtain ⟨f0, rest, rfl⟩ := List.exists_cons_of_ne_nil hne
    rw [MP3StreamInfo.findLoop, if_neg hbuf]
    simp only [hfind, if_neg htwo, if_pos h2047, hscan]
    have hacc' : 4 ≤ (f0 :: rest).length ∨ f0.xing.isSome = true := by
      rcases hacc with h | h
      · exact Or.inl h
      · exact Or.inr (by simpa [firstHasXing] using h)
    rw [if_pos hacc']
  · intro fuel r cached hbuf
    rw [MP3StreamInfo.findLoop, if_pos hbuf]

/-- A well-formed MPEG-2 layer-III frame at 8 kbps / 22050 Hz
(frame size 26 bytes), used as concrete witness input. -/
def mp3TestFrameBytes : List Nat := [255, 243, 16, 0] ++ List.replicate 22 0

/-- Four consecutive test frames followed by the literal bytes `TAG` and
125 filler bytes: the spec's end-to-end scenario D input (232 bytes). -/
def scenDFile : List Nat :=
  mp3TestFrameBytes ++ mp3TestFrameBytes ++ mp3TestFrameBytes ++
    mp3TestFrameBytes ++ tagMarker ++ List.replicate 125 0

def scenDFrame (start : Nat) : MPEGFrameHeader :=
  ⟨start, 26, none, none, MPEGVersion.v2, 3, false, 0, 8000, 0, 2, 22050⟩

def scenDFrames : List MPEGFrameHeader :=
  [scenDFrame 0, scenDFrame 26, scenDFrame 52, scenDFrame 78]

set_option maxRecDepth 100000 in
theorem find_mp3_frames_run_guarantee_witness :
    (scenDFrames ≠ [] ∧
      (2 ≤ scenDFrames.length ∨ firstHasXing scenDFrames = true))
  ∧ MP3StreamInfo.findLoop 50 ⟨scenDFile, 0⟩ none =
      .ok (scenDFrames, ⟨scenDFile, 104⟩) :=
  ⟨find_mp3_frames_run_guarantee.1 50 ⟨scenDFile, 0⟩ scenDFrames
     ⟨scenDFile, 104⟩ rfl,
   find_mp3_frames_run_guarantee.2.1 49 ⟨scenDFile, 0⟩ none 0 scenDFrames
     ⟨scenDFile, 104⟩ (by decide) (by decide) (by decide) (by decide) rfl
     (by decide) (Or.inl (by decide))⟩

/-- C5: for every 4-byte input, frame-header decoding fails with the
recoverable `InvalidFrame` error — the one caught by the resynchronizing
scanner — whenever the top 11 bits are not all ones, or the 2-bit version
id is the reserved value 1, the 2-bit layer id is 0, the 4-bit bitrate
index is 0 or 15, or the 2-bit sample-rate index is 3; no frame header is
produced in any of these cases. -/
theorem mpeg_frame_header_rejection (b0 b1 b2 b3 : Nat)
    (_hb0 : b0 < 256) (_hb1 : b1 < 256) (_hb2 : b2 < 256) (_hb3 : b3 < 256)
    (hcond : (b0 * 256 + b1) / 32 ≠ 2047 ∨ b1 / 8 % 4 = 1 ∨ b1 / 2 % 4 = 0 ∨
      b2 / 16 = 0 ∨ b2 / 16 = 15 ∨ b2 / 4 % 4 = 3) :
    (MPEGFrameHeader.load ⟨[b0, b1, b2, b3], 0⟩).1 = .error .invalidFrame ∧
      caughtByFrameScan .invalidFrame = true := by
  refine ⟨?_, rfl⟩
  by_cases hs : (b0 * 256 + b1) / 32 = 2047
  · have hrest : b1 / 8 % 4 = 1 ∨ b1 / 2 % 4 = 0 ∨ b2 / 16 = 0 ∨
        b2 / 16 = 15 ∨ b2 / 4 % 4 = 3 := by
      rcases hcond with h | h
      · exact absurd hs h
      · exact h
    simp [MPEGFrameHeader.load, DataReader.readN, DataReader.peekN, hs, hrest]
  · simp [MPEGFrameHeader.load, DataReader.readN, DataReader.peekN, hs]

theorem mpeg_frame_header_rejection_witness :
    (MPEGFrameHeader.load ⟨[255, 235, 16, 0], 0⟩).1 = .error .invalidFrame ∧
      caughtByFrameScan .invalidFrame = true :=
  mpeg_frame_header_rejection 255 235 16 0 (by norm_num) (by norm_num)
    (by norm_num) (by norm_num) (by norm_num)

/-- C7: with a Xing frame count and an embedded LAME header, the LAME
delay plus padding is subtracted from the total sample count
(samples-per-frame × frame count) exactly when the subtraction leaves a
positive remainder, and the count is left unchanged otherwise. -/
theorem lame_delay_padding_subtraction (spf nf : Nat) (l : LAMEHeader) :
    (0 < (spf * nf : Int) - ((l.delay : Int) + (l.padding : Int)) →
      MP3StreamInfo.xingNumSamples spf nf (some l) =
        spf * nf - (l.delay + l.padding))
  ∧ (¬ 0 < (spf * nf : Int) - ((l.delay : Int) + (l.padding : Int)) →
      MP3StreamInfo.xingNumSamples spf nf (some l) = spf * nf) := by
  unfold MP3StreamInfo.xingNumSamples
  constructor
  · intro h
    have hlt : l.delay + l.padding < spf * nf := by omega
    simp [hlt]
  · intro h
    have hge : ¬ l.delay + l.padding < spf * nf := by omega
    simp [hge]

def c7LameHeader : LAMEHeader :=
  ⟨[], none, 0, 0, [], 0, 0, 0, 0, 100, ⟨false, false, false, false⟩, 0, 0,
   0, 200, 0, ⟨none, 0, 0, 0, 0, 0, 0⟩, 0, 0, 0⟩

theorem lame_delay_padding_subtraction_witness :
    MP3StreamInfo.xingNumSamples 576 10 (some c7LameHeader) =
      576 * 10 - (c7LameHeader.delay + c7LameHeader.padding) :=
  (lame_delay_padding_subtraction 576 10 c7LameHeader).1 (by norm_num [c7LameHeader])

/-- C4 counterexample: decoding eight zero bytes yields a replay-gain
structure whose peak is `None`, not 0, refuting the claim that a zero raw
peak field decodes to the value 0. -/
theorem replay_gain_peak_counterexample :
    LAMEReplayGain.load ⟨[0, 0, 0, 0, 0, 0, 0, 0], 0⟩ =
      .ok (⟨none, 0, 0, 0, 0, 0, 0⟩, ⟨[0, 0, 0, 0, 0, 0, 0, 0], 8⟩) ∧
    (none : Option ℚ) ≠ some 0 := by
  refine ⟨?_, by simp⟩
  simp only [LAMEReplayGain.load, DataReader.readBE, DataReader.readN,
    DataReader.peekN, List.drop_zero]
  norm_num [Prod.ext_iff, LAMEReplayGain.mk.injEq, beNat]

/-- C4 as amended: the decoded peak is absent (`None`) when the raw
32-bit field is 0 and `raw / 2²³` otherwise, and each of the track and
album adjustments equals the 9-bit magnitude divided by 10, negated
exactly when the dedicated sign bit is set. -/
theorem lame_replay_gain_amended (p0 p1 p2 p3 t0 t1 u0 u1 : Nat) :
    LAMEReplayGain.load ⟨[p0, p1, p2, p3, t0, t1, u0, u1], 0⟩ =
      .ok (⟨if beNat [p0, p1, p2, p3] = 0 then none
              else some ((beNat [p0, p1, p2, p3] : ℚ) / 2 ^ 23),
            t0 / 32, t0 / 4 % 8,
            (if t0 / 2 % 2 = 1 then (-1 : ℚ) else 1) *
              (((t0 % 2 * 256 + t1 : Nat) : ℚ) / 10),
            u0 / 32, u0 / 4 % 8,
            (if u0 / 2 % 2 = 1 then (-1 : ℚ) else 1) *
              (((u0 % 2 * 256 + u1 : Nat) : ℚ) / 10)⟩,
           ⟨[p0, p1, p2, p3, t0, t1, u0, u1], 8⟩) := by
  simp only [LAMEReplayGain.load, DataReader.readBE, DataReader.readN,
    DataReader.peekN, List.drop_zero]
  norm_num [Prod.ext_iff, LAMEReplayGain.mk.injEq]

/-- The decoded flags of an ID3v2 header load result, when it succeeds. -/
def headerFlagsOf (res : Except Err (ID3v2Header × DataReader)) :
    Option ID3v2Flags :=
  match res with
  | .ok (h, _) => some h.flags
  | .error _ => none

theorem testBit_high_of_div16 : ∀ a b : Nat, a / 16 = b / 16 →
    a.testBit 7 = b.testBit 7 ∧ a.testBit 6 = b.testBit 6 ∧
    a.testBit 5 = b.testBit 5 ∧ a.testBit 4 = b.testBit 4 := by
  intro a b h
  refine ⟨?_, ?_, ?_, ?_⟩ <;>
    (rw [Nat.testBit_to_div_mod, Nat.testBit_to_div_mod]
     simp only [decide_eq_decide]
     norm_num
     omega)

set_option maxRecDepth 100000 in
/-- C9: the 10-byte buffer `ID3 03 00 00 00 00 00 00` decodes to version
(2,3) with all four flags false and declared size 0; for every flags byte
the four named flags equal its four high-order bits, and two flag bytes
agreeing on their high four bits decode to identical flags, so the
low-order four bits never affect the decoded flags. -/
theorem id3v2_header_flag_decoding :
    (ID3v2Header.load ⟨[73, 68, 51, 3, 0, 0, 0, 0, 0, 0], 0⟩ =
      .ok (⟨0, .v23, ⟨false, false, false, false⟩⟩,
           ⟨[73, 68, 51, 3, 0, 0, 0, 0, 0, 0], 10⟩))
  ∧ (∀ fb : Fin 256,
      headerFlagsOf (ID3v2Header.load ⟨[73, 68, 51, 3, 0, fb.val, 0, 0, 0, 0], 0⟩) =
        some ⟨fb.val.testBit 7, fb.val.testBit 6, fb.val.testBit 5,
              fb.val.testBit 4⟩)
  ∧ (∀ fb fb' : Fin 256, fb.val / 16 = fb'.val / 16 →
      headerFlagsOf (ID3v2Header.load ⟨[73, 68, 51, 3, 0, fb.val, 0, 0, 0, 0], 0⟩) =
        headerFlagsOf (ID3v2Header.load ⟨[73, 68, 51, 3, 0, fb'.val, 0, 0, 0, 0], 0⟩)) := by
  have h2 : ∀ fb : Fin 256,
      headerFlagsOf (ID3v2Header.load ⟨[73, 68, 51, 3, 0, fb.val, 0, 0, 0, 0], 0⟩) =
        some ⟨fb.val.testBit 7, fb.val.testBit 6, fb.val.testBit 5,
              fb.val.testBit 4⟩ := by decide
  refine ⟨rfl, h2, ?_⟩
  intro fb fb' hq
  rw [h2 fb, h2 fb']
  obtain ⟨e7, e6, e5, e4⟩ := testBit_high_of_div16 fb.val fb'.val hq
  rw [e7, e6, e5, e4]

theorem id3v2_header_flag_decoding_witness :
    headerFlagsOf (ID3v2Header.load ⟨[73, 68, 51, 3, 0, 17, 0, 0, 0, 0], 0⟩) =
      headerFlagsOf (ID3v2Header.load ⟨[73, 68, 51, 3, 0, 31, 0, 0, 0, 0], 0⟩) :=
  id3v2_header_flag_decoding.2.2 ⟨17, by norm_num⟩ ⟨31, by norm_num⟩ (by norm_num)

/-- C8: the aggregator stores every decoded genre frame under the literal
key `TCON` with plain assignment.  For v2.3 (and v2.4) this is the raw id
the canonical name `genre` maps to, so lookup works and a later genre
frame replaces an earlier one; but for a v2.2 tag the canonical `genre`
key maps to `TCO`, so the stored value is unreachable through the
canonical name — the claim's v2.2 half fails on the code. -/
theorem id3v2_genre_fold_bug :
    (ID3v2Frames.aggregate
        [.frame (.genre "TCON" "Pop"), .frame (.genre "TCON" "Rock")] [] =
      .ok [("TCON", .single "Rock")])
  ∧ (tagsGetItem v23FieldMap [("TCON", TagVal.single "Rock")] "genre" =
      some (.single "Rock"))
  ∧ (ID3v2Frames.aggregate [.frame (.genre "TCO" "Rock")] [] =
      .ok [("TCON", .single "Rock")])
  ∧ (tagsGetItem v22FieldMap [("TCON", TagVal.single "Rock")] "genre" = none)
  ∧ fieldMapGet v22FieldMap "genre" = "TCO" := by
  exact ⟨rfl, rfl, rfl, rfl, rfl⟩

/-- C10: when the first accepted frame carries a Xing header without a
frame count (which `XingHeader.load` produces whenever flags bit 0 is
clear, as the second conjunct shows on the flags word 0), the stream-info
computation still takes the Xing branch and multiplies samples-per-frame
by the absent count, so it fails with Python's `TypeError` instead of
falling back to the frame-length-based sample estimate of the
no-Xing/no-VBRI branch. -/
theorem xing_missing_frame_count_fails (f0 : MPEGFrameHeader)
    (rest : List MPEGFrameHeader) (r : DataReader) (x : XingHeader)
    (hx : f0.xing = some x) (hnf : x.num_frames = none)
    (hsps : (MP3SamplesPerFrame f0.version f0.layer).isSome = true) :
    MP3StreamInfo.compute (f0 :: rest) r = .error .typeError ∧
    XingHeader.load ⟨xingMarker ++ [0, 0, 0, 0], 0⟩ =
      .ok (⟨none, none, none, none, none⟩, ⟨xingMarker ++ [0, 0, 0, 0], 8⟩) := by
  constructor
  · obtain ⟨sps, hsp⟩ := Option.isSome_iff_exists.mp hsps
    simp only [MP3StreamInfo.compute, hsp, hx, hnf]
  · rfl

def c10Xing : XingHeader := ⟨none, none, none, none, none⟩

def c10Frame : MPEGFrameHeader :=
  ⟨0, 26, none, some c10Xing, MPEGVersion.v2, 3, false, 0, 8000, 0, 2, 22050⟩

theorem xing_missing_frame_count_fails_witness :
    MP3StreamInfo.compute [c10Frame] ⟨List.replicate 130 0, 0⟩ =
        .error .typeError ∧
      XingHeader.load ⟨xingMarker ++ [0, 0, 0, 0], 0⟩ =
        .ok (⟨none, none, none, none, none⟩, ⟨xingMarker ++ [0, 0, 0, 0], 8⟩) :=
  xing_missing_frame_count_fails c10Frame [] ⟨List.replicate 130 0, 0⟩
    c10Xing rfl rfl rfl


theorem assemble_mode_bitrate (f0 : MPEGFrameHeader) (vbri : Option VBRIHeader)
    (xing : Option XingHeader) (a b : Nat) (c : Int) (mode : MP3BitrateMode)
    (ns : ℚ) (info : MP3StreamInfo)
    (h : MP3StreamInfo.assemble f0 vbri xing a b c mode ns = .ok info) :
    info.bitrate_mode = mode ∧
      (mode = MP3BitrateMode.cbr → info.bitrate = (f0.bitrate : ℚ)) := by
  unfold MP3StreamInfo.assemble at h
  split at h
  · simp at h
  · rename_i bitrate heq
    split at h
    · simp at h
    · cases h
      refine ⟨rfl, ?_⟩
      intro hm
      rw [if_pos hm] at heq
      simp only [Except.ok.injEq] at heq
      simp [heq]

/-- C2: for a successfully computed stream info over a discovered frame
run, (i) with no Xing and no VBRI header on the first frame the bitrate
mode is CBR iff every discovered frame reports the first frame's bitrate,
(ii) a Xing header with an embedded LAME header whose bitrate-mode code
is 3 yields VBR, and (iii) whenever the mode is CBR the reported bitrate
is exactly the first frame's declared bitrate. -/
theorem mp3_bitrate_mode_selection (f0 : MPEGFrameHeader)
    (rest : List MPEGFrameHeader) (r : DataReader) (info : MP3StreamInfo)
    (hok : MP3StreamInfo.compute (f0 :: rest) r = .ok info) :
    ((f0.xing = none ∧ f0.vbri = none) →
      (info.bitrate_mode = MP3BitrateMode.cbr ↔
        (f0 :: rest).all (fun fr => fr.bitrate = f0.bitrate) = true))
  ∧ (∀ x l, f0.xing = some x → x.lame = some l → l.bitrate_mode = 3 →
      info.bitrate_mode = MP3BitrateMode.vbr)
  ∧ (info.bitrate_mode = MP3BitrateMode.cbr →
      info.bitrate = (f0.bitrate : ℚ)) := by
  rw [show MP3StreamInfo.compute (f0 :: rest) r =
      (match MP3SamplesPerFrame f0.version f0.layer with
       | none => .error .keyError
       | some sps =>
         match f0.xing with
         | some xing =>
           match xing.num_frames with
           | none => .error .typeError
           | some nf =>
             MP3StreamInfo.assemble f0 f0.vbri (some xing) f0.start
               (MP3StreamInfo.audioEnd r)
               ((MP3StreamInfo.audioEnd r : Int) - (f0.start : Int))
               (lameDerivedMode xing.lame)
               ((MP3StreamInfo.xingNumSamples sps.1 nf xing.lame : Nat) : ℚ)
         | none =>
           match f0.vbri with
           | some vbri =>
             MP3StreamInfo.assemble f0 (some vbri) none f0.start
               (MP3StreamInfo.audioEnd r)
               ((MP3StreamInfo.audioEnd r : Int) - (f0.start : Int))
               MP3BitrateMode.vbr ((sps.1 * vbri.num_frames : Nat) : ℚ)
           | none =>
             if f0.size = 0 then .error .zeroDivisionError
             else
               MP3StreamInfo.assemble f0 none none f0.start
                 (MP3StreamInfo.audioEnd r)
                 ((MP3StreamInfo.audioEnd r : Int) - (f0.start : Int))
                 (if (f0 :: rest).all (fun fr => fr.bitrate = f0.bitrate) then
                   MP3BitrateMode.cbr
                 else MP3BitrateMode.unknown)
                 ((sps.1 : ℚ) *
                   ((((MP3StreamInfo.audioEnd r : Int) - (f0.start : Int) : Int) : ℚ) /
                     (f0.size : ℚ)))) from rfl] at hok
  split at hok
  · simp at hok
  · split at hok
    · rename_i sps hsps xing hxing
      split at hok
      · simp at hok
      · rename_i nf hnf
        have ham := assemble_mode_bitrate _ _ _ _ _ _ _ _ _ hok
        refine ⟨?_, ?_, ?_⟩
        · intro hnone
          rw [hnone.1] at hxing
          simp at hxing
        · intro x l hx hl hl3
          rw [hxing] at hx
          simp only [Option.some.injEq] at hx
          subst hx
          rw [ham.1]
          unfold lameDerivedMode
          rw [hl]
          simp [hl3]
        · intro hcbr
          exact ham.2 (by rw [← ham.1, hcbr])
    · rename_i sps hsps hxing
      split at hok
      · rename_i vbri hvbri
        have ham := assemble_mode_bitrate _ _ _ _ _ _ _ _ _ hok
        refine ⟨?_, ?_, ?_⟩
        · intro hnone
          rw [hnone.2] at hvbri
          simp at hvbri
        · intro x l hx
          rw [hxing] at hx
          simp at hx
        · intro hcbr
          exact ham.2 (by rw [← ham.1, hcbr])
      · rename_i hvbri
        split at hok
        · simp at hok
        · have ham := assemble_mode_bitrate _ _ _ _ _ _ _ _ _ hok
          refine ⟨?_, ?_, ?_⟩
          · intro _
            rw [ham.1]
            by_cases hall :
                (f0 :: rest).all (fun fr => fr.bitrate = f0.bitrate) = true
            · simp [hall]
            · simp [hall]
          · intro x l hx
            rw [hxing] at hx
            simp at hx
          · intro hcbr
            exact ham.2 (by rw [← ham.1, hcbr])

def c2Frame0 : MPEGFrameHeader :=
  ⟨0, 26, none, none, MPEGVersion.v2, 3, false, 0, 8000, 0, 2, 22050⟩

def c2Frame1 : MPEGFrameHeader :=
  ⟨26, 26, none, none, MPEGVersion.v2, 3, false, 0, 8000, 0, 2, 22050⟩

def c2Reader : DataReader := ⟨List.replicate 130 0, 0⟩

def c2Info : MP3StreamInfo :=
  ⟨0, 130, 130, none, none, MPEGVersion.v2, 3, false, 8000,
   MP3BitrateMode.cbr, 0, 2, 13 / 100, 22050⟩

set_option maxRecDepth 400000 in
theorem mp3_bitrate_mode_selection_witness :
    (c2Info.bitrate_mode = MP3BitrateMode.cbr ↔
      [c2Frame0, c2Frame1].all (fun fr => fr.bitrate = c2Frame0.bitrate) = true)
  ∧ (c2Info.bitrate_mode = MP3BitrateMode.cbr →
      c2Info.bitrate = (c2Frame0.bitrate : ℚ)) := by
  have hok : MP3StreamInfo.compute [c2Frame0, c2Frame1] c2Reader = .ok c2Info := by
    have hoff : MP3StreamInfo.audioEnd ⟨List.replicate 130 0, 0⟩ = 130 := by decide
    simp only [MP3StreamInfo.compute, c2Frame0, c2Frame1, c2Reader, c2Info,
      MP3SamplesPerFrame, MP3StreamInfo.assemble]
    norm_num [hoff]
  exact ⟨(mp3_bitrate_mode_selection c2Frame0 [c2Frame1] c2Reader c2Info hok).1
      ⟨rfl, rfl⟩,
    (mp3_bitrate_mode_selection c2Frame0 [c2Frame1] c2Reader c2Info hok).2.2⟩

theorem loadTail_size (hdr : ID3v2Header) (s : Nat) (r : DataReader)
    (res : ID3v2) (r' : DataReader)
    (h : ID3v2.loadTail hdr s r = .ok (res, r')) :
    res.size = (if hdr.flags.footer then s + 10 else s) ∧ res.header = hdr := by
  unfold ID3v2.loadTail at h
  split at h
  · simp at h
  · cases h
    exact ⟨rfl, rfl⟩

theorem headerLoad_len (bs : List Nat) (p : ID3v2Header × DataReader)
    (h : ID3v2Header.load ⟨bs, 0⟩ = .ok p) : 10 ≤ bs.length := by
  unfold ID3v2Header.load at h
  split at h
  · simp at h
  · split at h
    · simp at h
    · rename_i hlen
      simp only [DataReader.readN, DataReader.peekN, not_lt] at hlen
      simp only [List.length_take, List.length_drop] at hlen
      omega

/-- C3 counterexample: a header with the extended flag set and declared
size 10, followed by an extended-header size field of 6, is parsed with
total tag block size `10 + 10 + 6 = 26`, not the claimed
`10 + S (+10 iff footer) = 20`. -/
theorem id3v2_total_size_counterexample :
    ID3v2.load ⟨[73, 68, 51, 3, 0, 64, 0, 0, 0, 10, 0, 0, 0, 6], 0⟩ =
      .ok (⟨⟨10, .v23, ⟨false, true, false, false⟩⟩, 26, [], none⟩,
           ⟨[73, 68, 51, 3, 0, 64, 0, 0, 0, 10, 0, 0, 0, 6], 14⟩)
  ∧ (⟨⟨10, .v23, ⟨false, true, false, false⟩⟩, 26, [], none⟩ : ID3v2).size ≠
      10 + (⟨⟨10, .v23, ⟨false, true, false, false⟩⟩, 26, [], none⟩ : ID3v2).header.size +
      (if (⟨⟨10, .v23, ⟨false, true, false, false⟩⟩, 26, [], none⟩ :
          ID3v2).header.flags.footer then 10 else 0) := by
  exact ⟨by decide, by decide⟩

/-- C3 as amended: for every successfully parsed ID3v2 tag the recorded
total tag block size is `10 + S` plus the declared extended-header size
when the extended flag is set, plus 10 more if and only if the footer
flag is set (the claim as stated omits the extended-header term). -/
theorem id3v2_total_size_amended (r : DataReader) (res : ID3v2)
    (r' : DataReader) (hok : ID3v2.load r = .ok (res, r')) :
    (res.header.flags.extended = false →
      res.size = 10 + res.header.size +
        (if res.header.flags.footer then 10 else 0))
  ∧ (res.header.flags.extended = true →
      ∃ e, decode_synchsafe_int ((r.data.drop (r.pos + 10)).take 4) 7 = .ok e ∧
        res.size = 10 + res.header.size + e +
          (if res.header.flags.footer then 10 else 0)) := by
  unfold ID3v2.load at hok
  split at hok
  · simp at hok
  · split at hok
    · simp at hok
    · rename_i hdr snd hhdr
      have hlen10 : ((r.readN 10).1).length = 10 := by
        have hge := headerLoad_len _ _ hhdr
        simp only [DataReader.readN, DataReader.peekN, List.length_take,
          List.length_drop] at hge ⊢
        omega
      have hpos : (r.readN 10).2 = ⟨r.data, r.pos + 10⟩ := by
        show ({ r with pos := r.pos + (r.readN 10).1.length } : DataReader) = _
        rw [hlen10]
      split at hok
      · rename_i hext
        split at hok
        · simp at hok
        · split at hok
          · simp at hok
          · rename_i e he
            have hl := loadTail_size _ _ _ _ _ hok
            refine ⟨?_, ?_⟩
            · intro hfalse
              rw [hl.2] at hfalse
              rw [hfalse] at hext
              simp at hext
            · intro _
              refine ⟨e, ?_, ?_⟩
              · rw [hpos] at he
                simpa [DataReader.readN, DataReader.peekN] using he
              · rw [hl.1, hl.2]
                split <;> omega
      · rename_i hext
        have hl := loadTail_size _ _ _ _ _ hok
        refine ⟨?_, ?_⟩
        · intro _
          rw [hl.1, hl.2]
          split <;> omega
        · intro htrue
          rw [hl.2] at htrue
          rw [htrue] at hext
          simp at hext

theorem id3v2_total_size_amended_witness :
    (⟨⟨0, .v23, ⟨false, false, false, false⟩⟩, 10, [], none⟩ : ID3v2).size =
      10 + (⟨⟨0, .v23, ⟨false, false, false, false⟩⟩, 10, [], none⟩ :
        ID3v2).header.size +
      (if (⟨⟨0, .v23, ⟨false, false, false, false⟩⟩, 10, [], none⟩ :
          ID3v2).header.flags.footer then 10 else 0) :=
  (id3v2_total_size_amended ⟨[73, 68, 51, 3, 0, 0, 0, 0, 0, 0], 0⟩
      ⟨⟨0, .v23, ⟨false, false, false, false⟩⟩, 10, [], none⟩
      ⟨[73, 68, 51, 3, 0, 0, 0, 0, 0, 0], 10⟩ (by decide)).1 rfl

/-- The trailing-tag offset formula exactly as the claim states it: for
each marker found by the backwards search take the distance from the
buffer end, regardless of the match position, and keep the largest (0
when no marker matches). -/
def specTrailingTagOffsetClaimed (buf : List Nat) : Nat :=
  (endTagMarkers.filterMap
    (fun m => (rfindIdx m buf).map (fun i => buf.length - i))).foldr max 0

/-- The amended trailing-tag offset formula: as claimed, except that a
marker whose last occurrence is at index 0 of the search buffer is
ignored (the source's `tag_offset > 0` guard). -/
def specTrailingTagOffsetAmended (buf : List Nat) : Nat :=
  (endTagMarkers.filterMap
    (fun m => (rfindIdx m buf).bind
      (fun i => if 0 < i then some (buf.length - i) else none))).foldr max 0

set_option maxRecDepth 1000000 in
/-- C6 counterexample: a search buffer that is exactly `TAG` plus 125
filler bytes has its only marker match at index 0; the code computes
offset 0 while the claimed formula gives 128. -/
theorem trailing_tag_counterexample :
    MP3StreamInfo.computeEndTagOffset (tagMarker ++ List.replicate 125 0) = 0
  ∧ specTrailingTagOffsetClaimed (tagMarker ++ List.replicate 125 0) = 128
  ∧ (0 : Nat) ≠ 128 :=
  ⟨by decide, by decide, by decide⟩

/-- The audio region (start and end offsets) of a stream-info result. -/
def streamInfoRegion (res : Except Err MP3StreamInfo) : Option (Nat × Nat) :=
  match res with
  | .ok i => some (i.start, i.end_)
  | .error _ => none

set_option maxHeartbeats 2000000 in
set_option maxRecDepth 1000000 in
/-- C6 as amended: the end-tag search offset equals the largest
end-distance of a marker match at a strictly positive buffer index (a
match at the very start of the search window is ignored — the claim as
stated also counts index-0 matches); the stream-info computation depends
on the byte source only through its length and its last 64 KiB; and on
the concrete scenario-D file (four 26-byte frames followed by `TAG` and
125 filler bytes, 232 bytes in all) the computed audio region is
`[0, 104)`, excluding exactly the final 128 bytes. -/
theorem trailing_tag_detection_amended :
    (∀ buf, MP3StreamInfo.computeEndTagOffset buf =
      specTrailingTagOffsetAmended buf)
  ∧ (∀ (frames : List MPEGFrameHeader) (r r' : DataReader),
      r.data.length = r'.data.length →
      r.data.drop (r.data.length - 65536) =
        r'.data.drop (r'.data.length - 65536) →
      MP3StreamInfo.compute frames r = MP3StreamInfo.compute frames r')
  ∧ streamInfoRegion (MP3StreamInfo.load 50 ⟨scenDFile, 0⟩) = some (0, 104)
  ∧ scenDFile.length = 232 := by
  refine ⟨?_, ?_, ?_, by decide⟩
  · intro buf
    unfold MP3StreamInfo.computeEndTagOffset specTrailingTagOffsetAmended
      endTagMarkers
    rcases hA : rfindIdx apetagexMarker buf with _ | iA <;>
      rcases hL : rfindIdx lyricsbeginMarker buf with _ | iL <;>
        rcases hT : rfindIdx tagMarker buf with _ | iT <;>
          simp [hA, hL, hT, List.filterMap_cons] <;> split_ifs <;>
            (try simp) <;> omega
  · intro frames r r' hlen hlast
    have hbuf : MP3StreamInfo.endBuffer r = MP3StreamInfo.endBuffer r' := by
      unfold MP3StreamInfo.endBuffer
      rw [← hlen]
      split
      · rw [hlast, hlen]
      · rename_i hnot
        have h0 : r.data.length - 65536 = 0 := by omega
        rw [h0] at hlast
        simp at hlast
        rw [hlast]
        have h0' : r'.data.length - 65536 = 0 := by omega
        rw [h0']
        simp
    have hend : MP3StreamInfo.audioEnd r = MP3StreamInfo.audioEnd r' := by
      unfold MP3StreamInfo.audioEnd
      rw [hbuf, hlen]
    simp only [MP3StreamInfo.compute, hend]
  · rfl

theorem trailing_tag_detection_amended_witness :
    MP3StreamInfo.compute [] ⟨[5], 0⟩ = MP3StreamInfo.compute [] ⟨[5], 3⟩ :=
  trailing_tag_detection_amended.2.1 [] ⟨[5], 0⟩ ⟨[5], 3⟩ rfl rfl
